import Mathlib

/-!
Shallow embedding of the zynthian audio-mixer view controller
(`zyngui/zynthian_gui_mixer.py`) and of the WS281X LED status reducer
(`zyngui/zynthian_wsleds_base.py`, `zyngui/zynthian_wsleds_v5.py`).

Conventions of the embedding:
* Python floats become rationals (`ℚ`); chain/channel indices that the code
  compares against negative numbers become `Int`, list positions become `Nat`.
* The external mixer engine (`zynmixer`) is modelled as a total map from
  channel number to its stored per-channel record; its setters are plain
  store updates (the engine is an external adapter consumed via get/set).
* Canvas drawing, window titles, the selection-highlight rectangle and the
  hardware encoder registers are external display/hardware effects with no
  bearing on the modelled state; calls such as `highlight_mixer_strip`,
  `update_zyncoders` and `zyngui.set_curlayer` are therefore omitted.
* Python list indexing is modelled by `pyGet`/`pyIdx`, which wrap negative
  indices from the end exactly as Python does; an index that Python would
  reject with `IndexError` becomes `none`.
-/

def MAX_NUM_CHANNELS : Nat := 16

/-- Per-channel record stored by the external mixer engine (`zynmixer`):
level, balance, mute, solo, mono. -/
structure ChannelState where
  level : ℚ
  balance : ℚ
  mute : Bool
  solo : Bool
  mono : Bool
deriving DecidableEq

instance : Inhabited ChannelState := ⟨⟨0, 0, false, false, false⟩⟩

/-- The external mixer engine: a total store of per-channel state. -/
abbrev Engine := Nat → ChannelState

def Engine.set_level (e : Engine) (ch : Nat) (v : ℚ) : Engine :=
  fun c => if c = ch then { e c with level := v } else e c

def Engine.set_balance (e : Engine) (ch : Nat) (v : ℚ) : Engine :=
  fun c => if c = ch then { e c with balance := v } else e c

def Engine.set_mute (e : Engine) (ch : Nat) (v : Bool) : Engine :=
  fun c => if c = ch then { e c with mute := v } else e c

def Engine.set_solo (e : Engine) (ch : Nat) (v : Bool) : Engine :=
  fun c => if c = ch then { e c with solo := v } else e c

def Engine.set_mono (e : Engine) (ch : Nat) (v : Bool) : Engine :=
  fun c => if c = ch then { e c with mono := v } else e c

def Engine.toggle_mute (e : Engine) (ch : Nat) : Engine :=
  fun c => if c = ch then { e c with mute := !(e c).mute } else e c

def Engine.toggle_solo (e : Engine) (ch : Nat) : Engine :=
  fun c => if c = ch then { e c with solo := !(e c).solo } else e c

def Engine.toggle_mono (e : Engine) (ch : Nat) : Engine :=
  fun c => if c = ch then { e c with mono := !(e c).mono } else e c

/-- A strip's bound layer: either the permanent main-bus stub layer
(`zynthian_gui_mixer_main_layer`, `midi_chan = MAX_NUM_CHANNELS`) or a chain
layer with its MIDI channel; `midiTool` records whether the layer's engine
type is `"MIDI Tool"` (a MIDI-only chain). -/
inductive Layer where
  | main : Layer
  | chain (midi_chan : Nat) (midiTool : Bool) : Layer
deriving DecidableEq

def Layer.midiChan : Layer → Nat
  | Layer.main => MAX_NUM_CHANNELS
  | Layer.chain mc _ => mc

/-- View-side state of one mixer strip (`zynthian_gui_mixer_strip`):
the bound layer (or none for a hidden slot) and the per-strip
dirty/redraw flag `redraw_controls_flag`. -/
structure Strip where
  layer : Option Layer
  redraw_controls_flag : Bool
  hidden : Bool
deriving DecidableEq

instance : Inhabited Strip := ⟨⟨none, false, true⟩⟩

/-- `zynthian_gui_mixer_strip.set_layer`: swap the bound layer; `None`
hides the strip, anything else shows it. -/
def Strip.set_layer (st : Strip) (l : Option Layer) : Strip :=
  match l with
  | none => { st with layer := none, hidden := true }
  | some ly => { st with layer := some ly, hidden := false }

/-- `zynthian_gui_mixer_strip.set_volume`: clamp the value into `[0, 1]`,
store it in the engine under the strip's channel, mark the strip dirty.
No-op when no layer is bound. -/
def Strip.set_volume (st : Strip) (e : Engine) (value : ℚ) : Strip × Engine :=
  match st.layer with
  | none => (st, e)
  | some l =>
      let v := if value < 0 then 0 else if value > 1 then 1 else value
      ({ st with redraw_controls_flag := true }, Engine.set_level e l.midiChan v)

/-- `zynthian_gui_mixer_strip.set_balance`: clamp into `[-1, 1]`, store,
mark dirty. -/
def Strip.set_balance (st : Strip) (e : Engine) (value : ℚ) : Strip × Engine :=
  match st.layer with
  | none => (st, e)
  | some l =>
      let v := if value < -1 then -1 else if value > 1 then 1 else value
      ({ st with redraw_controls_flag := true }, Engine.set_balance e l.midiChan v)

/-- `zynthian_gui_mixer_strip.reset_volume`: store the default level 0.8. -/
def Strip.reset_volume (st : Strip) (e : Engine) : Strip × Engine :=
  match st.layer with
  | none => (st, e)
  | some l =>
      ({ st with redraw_controls_flag := true }, Engine.set_level e l.midiChan (8/10))

/-- `zynthian_gui_mixer_strip.reset_balance`: store balance 0. -/
def Strip.reset_balance (st : Strip) (e : Engine) : Strip × Engine :=
  match st.layer with
  | none => (st, e)
  | some l =>
      ({ st with redraw_controls_flag := true }, Engine.set_balance e l.midiChan 0)

def Strip.set_mute (st : Strip) (e : Engine) (value : Bool) : Strip × Engine :=
  match st.layer with
  | none => (st, e)
  | some l =>
      ({ st with redraw_controls_flag := true }, Engine.set_mute e l.midiChan value)

def Strip.set_solo (st : Strip) (e : Engine) (value : Bool) : Strip × Engine :=
  match st.layer with
  | none => (st, e)
  | some l =>
      ({ st with redraw_controls_flag := true }, Engine.set_solo e l.midiChan value)

def Strip.set_mono (st : Strip) (e : Engine) (value : Bool) : Strip × Engine :=
  match st.layer with
  | none => (st, e)
  | some l =>
      ({ st with redraw_controls_flag := true }, Engine.set_mono e l.midiChan value)

def Strip.toggle_mute (st : Strip) (e : Engine) : Strip × Engine :=
  match st.layer with
  | none => (st, e)
  | some l =>
      ({ st with redraw_controls_flag := true }, Engine.toggle_mute e l.midiChan)

def Strip.toggle_solo (st : Strip) (e : Engine) : Strip × Engine :=
  match st.layer with
  | none => (st, e)
  | some l =>
      ({ st with redraw_controls_flag := true }, Engine.toggle_solo e l.midiChan)

def Strip.toggle_mono (st : Strip) (e : Engine) : Strip × Engine :=
  match st.layer with
  | none => (st, e)
  | some l =>
      ({ st with redraw_controls_flag := true }, Engine.toggle_mono e l.midiChan)

/-- Python list index normalisation: a negative index wraps from the end;
an index Python would raise `IndexError` for becomes `none`. -/
def pyIdx (len : Nat) (i : Int) : Option Nat :=
  if 0 ≤ i then (if i < (len : Int) then some i.toNat else none)
  else if 0 ≤ (len : Int) + i then some ((len : Int) + i).toNat
  else none

/-- Python list read `l[i]` with Python index semantics. -/
def pyGet {α : Type} (l : List α) (i : Int) : Option α :=
  match pyIdx l.length i with
  | some n => l.get? n
  | none => none

/-- Reference to the strip object returned by
`get_mixer_strip_from_layer_index`: a position in `visible_mixer_strips`
or the permanent main-bus strip. -/
inductive StripRef where
  | chainStrip (i : Nat) : StripRef
  | mainStrip : StripRef
deriving DecidableEq

/-- State of the mixer view (`zynthian_gui_mixer`), together with the two
external stores it reconciles against: the engine and the chain manager's
current ordered layer list (`zyngui.screens['layer'].get_root_layers()`). -/
structure MixerState where
  engine : Engine
  layers : List Layer
  visible_mixer_strips : List Strip
  main_mixbus_strip : Strip
  selected_chain_index : Option Int
  mixer_strip_offset : Int
  number_layers : Nat
  selected_layer : Option Layer
  mode : Nat
  edit_chain_index : Option Int
  redraw_pending : Bool

/-- Dereference a `StripRef` in a state. -/
def stripAt (s : MixerState) : StripRef → Strip
  | StripRef.chainStrip i => s.visible_mixer_strips.getD i default
  | StripRef.mainStrip => s.main_mixbus_strip

/-- Apply a strip operation through a `StripRef`, threading the engine. -/
def updateStrip (s : MixerState) (r : StripRef)
    (f : Strip → Engine → Strip × Engine) : MixerState :=
  match r with
  | StripRef.mainStrip =>
      let p := f s.main_mixbus_strip s.engine
      { s with main_mixbus_strip := p.1, engine := p.2 }
  | StripRef.chainStrip i =>
      let p := f (s.visible_mixer_strips.getD i default) s.engine
      { s with visible_mixer_strips := s.visible_mixer_strips.set i p.1,
               engine := p.2 }

/-- `zynthian_gui_mixer.get_mixer_strip_from_layer_index`: `None` falls back
to the current selection; `None`/negative indices give no strip; an index
below the chain count resolves into `visible_mixer_strips` at position
`chi - mixer_strip_offset` (with Python indexing); anything else resolves to
the main-bus strip. -/
def get_mixer_strip_from_layer_index (s : MixerState) (chi0 : Option Int) :
    Option StripRef :=
  let chi := match chi0 with
             | none => s.selected_chain_index
             | some c => some c
  match chi with
  | none => none
  | some c =>
      if c < 0 then none
      else if c < (s.number_layers : Int) then
        match pyIdx s.visible_mixer_strips.length (c - s.mixer_strip_offset) with
        | some i => some (StripRef.chainStrip i)
        | none => none
      else some StripRef.mainStrip

/-- `zynthian_gui_mixer.is_audio_layer`: the main-bus stub layer and any
chain layer whose engine type is not `"MIDI Tool"` are audio layers. -/
def is_audio_layer (l : Option Layer) : Bool :=
  match l with
  | some Layer.main => true
  | some (Layer.chain _ midiTool) => !midiTool
  | none => false

/-- `zynthian_gui_mixer.set_mixer_mode` (the reconcile step): re-read the
chain manager's layer list, recompute the chain count, rebind every visible
slot to the chain at `mixer_strip_offset + slot` or unbind it beyond the
count, and return to mixer mode. -/
def MixerState.set_mixer_mode (s : MixerState) : MixerState :=
  let n := s.layers.length
  let strips := s.visible_mixer_strips.enum.map (fun p =>
    let idx : Int := s.mixer_strip_offset + (p.1 : Int)
    if (n : Int) ≤ idx then Strip.set_layer p.2 none
    else Strip.set_layer p.2 (pyGet s.layers idx))
  { s with number_layers := n, visible_mixer_strips := strips,
           mode := 1, edit_chain_index := none }

/-- `zynthian_gui_mixer.select_chain_by_index`: no-op in edit mode, for a
missing or negative index, when the raw index equals the current selection,
or when there are no chains; otherwise clamp from above to `number_layers`,
record the selection, scroll (and rebind via `set_mixer_mode`) when the new
index leaves the visible window, and rebind `selected_layer`.  The
highlight redraw, encoder pushes and `set_curlayer` notification are
external effects, omitted here. -/
def MixerState.select_chain_by_index (s : MixerState) (chain_index : Option Int) :
    MixerState :=
  match chain_index with
  | none => s
  | some ci0 =>
      if s.mode = 0 ∨ ci0 < 0 ∨ some ci0 = s.selected_chain_index ∨
          s.number_layers = 0 then s
      else
        let ci : Int := if (s.number_layers : Int) < ci0 then (s.number_layers : Int) else ci0
        let s1 := { s with selected_chain_index := some ci }
        let s2 :=
          if ci < s1.mixer_strip_offset then
            MixerState.set_mixer_mode { s1 with mixer_strip_offset := ci }
          else if s1.mixer_strip_offset + (s1.visible_mixer_strips.length : Int) ≤ ci ∧
              ci ≠ (s1.number_layers : Int) then
            MixerState.set_mixer_mode
              { s1 with mixer_strip_offset := ci - (s1.visible_mixer_strips.length : Int) + 1 }
          else s1
        if ci < (s2.number_layers : Int) then
          { s2 with selected_layer :=
              match pyGet s2.visible_mixer_strips (ci - s2.mixer_strip_offset) with
              | some st => st.layer
              | none => none }
        else
          { s2 with selected_layer := some Layer.main }

/-- `zynthian_gui_mixer.set_volume` (the view-level setter): resolve the
index to a strip and delegate; the encoder push when the index is the
current selection is an external hardware effect, omitted. -/
def MixerState.set_volume (s : MixerState) (value : ℚ) (layer_index : Option Int) :
    MixerState :=
  match get_mixer_strip_from_layer_index s layer_index with
  | none => s
  | some r => updateStrip s r (fun st e => Strip.set_volume st e value)

/-- `zynthian_gui_mixer.set_balance`: additionally guarded by
`is_audio_layer` on the resolved strip's layer. -/
def MixerState.set_balance (s : MixerState) (value : ℚ) (layer_index : Option Int) :
    MixerState :=
  match get_mixer_strip_from_layer_index s layer_index with
  | none => s
  | some r =>
      if is_audio_layer (stripAt s r).layer then
        updateStrip s r (fun st e => Strip.set_balance st e value)
      else s

/-- `zynthian_gui_mixer.reset_balance`. -/
def MixerState.reset_balance (s : MixerState) (layer_index : Option Int) :
    MixerState :=
  match get_mixer_strip_from_layer_index s layer_index with
  | none => s
  | some r =>
      if is_audio_layer (stripAt s r).layer then
        updateStrip s r Strip.reset_balance
      else s

/-- `zynthian_gui_mixer.set_mute`. -/
def MixerState.set_mute (s : MixerState) (value : Bool) (layer_index : Option Int) :
    MixerState :=
  match get_mixer_strip_from_layer_index s layer_index with
  | none => s
  | some r =>
      if is_audio_layer (stripAt s r).layer then
        updateStrip s r (fun st e => Strip.set_mute st e value)
      else s

/-- `zynthian_gui_mixer.set_solo`: the strip-level `set_solo` fires the
`refresh_all_pending_cb` (modelled by `redraw_pending := true`), and the
view additionally marks the main-bus strip dirty. -/
def MixerState.set_solo (s : MixerState) (value : Bool) (layer_index : Option Int) :
    MixerState :=
  match get_mixer_strip_from_layer_index s layer_index with
  | none => s
  | some r =>
      if is_audio_layer (stripAt s r).layer then
        let s1 := updateStrip s r (fun st e => Strip.set_solo st e value)
        let s1 := { s1 with redraw_pending := true }
        { s1 with main_mixbus_strip :=
            { s1.main_mixbus_strip with redraw_controls_flag := true } }
      else s

/-- `zynthian_gui_mixer.set_mono`. -/
def MixerState.set_mono (s : MixerState) (value : Bool) (layer_index : Option Int) :
    MixerState :=
  match get_mixer_strip_from_layer_index s layer_index with
  | none => s
  | some r =>
      if is_audio_layer (stripAt s r).layer then
        updateStrip s r (fun st e => Strip.set_mono st e value)
      else s

/-- `zynthian_gui_mixer.toggle_mute`. -/
def MixerState.toggle_mute (s : MixerState) (layer_index : Option Int) : MixerState :=
  match get_mixer_strip_from_layer_index s layer_index with
  | none => s
  | some r =>
      if is_audio_layer (stripAt s r).layer then
        updateStrip s r Strip.toggle_mute
      else s

/-- `zynthian_gui_mixer.toggle_solo`: toggle on the resolved strip (which
marks that strip dirty and fires `refresh_all_pending_cb`, modelled as
`redraw_pending := true`), mark every visible strip dirty when the target
is the main-bus strip, and always mark the main-bus strip dirty. -/
def MixerState.toggle_solo (s : MixerState) (layer_index : Option Int) : MixerState :=
  match get_mixer_strip_from_layer_index s layer_index with
  | none => s
  | some r =>
      if is_audio_layer (stripAt s r).layer then
        let s1 := updateStrip s r Strip.toggle_solo
        let s1 := { s1 with redraw_pending := true }
        let s2 :=
          if r = StripRef.mainStrip then
            { s1 with visible_mixer_strips :=
                s1.visible_mixer_strips.map (fun st => { st with redraw_controls_flag := true }) }
          else s1
        { s2 with main_mixbus_strip :=
            { s2.main_mixbus_strip with redraw_controls_flag := true } }
      else s

/-- `zynthian_gui_mixer.toggle_mono`: note the source has no
`is_audio_layer` guard here, only the strip resolution. -/
def MixerState.toggle_mono (s : MixerState) (layer_index : Option Int) : MixerState :=
  match get_mixer_strip_from_layer_index s layer_index with
  | none => s
  | some r => updateStrip s r Strip.toggle_mono

/-- `zynthian_gui_mixer.on_fader_wheel_down` (the view-level handler):
scroll the window left by one unless the offset is already below 1. -/
def MixerState.on_fader_wheel_down (s : MixerState) : MixerState :=
  if s.mixer_strip_offset < 1 then s
  else MixerState.set_mixer_mode { s with mixer_strip_offset := s.mixer_strip_offset - 1 }

/-- `zynthian_gui_mixer.on_fader_wheel_up` (the view-level handler):
scroll the window right by one unless it already reaches the chain count. -/
def MixerState.on_fader_wheel_up (s : MixerState) : MixerState :=
  if (s.number_layers : Int) ≤ s.mixer_strip_offset + (s.visible_mixer_strips.length : Int) then s
  else MixerState.set_mixer_mode { s with mixer_strip_offset := s.mixer_strip_offset + 1 }

/-- `zynthian_gui_mixer.zyncoder_read`, SELECT-encoder branch: map the raw
encoder value through `int((1 + value) / 4)` and select that chain when in
mixer mode and the target differs from the current selection. -/
def zyncoder_read_select (s : MixerState) (raw : Nat) : MixerState :=
  let value : Int := (((1 + raw) / 4 : Nat) : Int)
  if s.mode ≠ 0 ∧ some value ≠ s.selected_chain_index then
    MixerState.select_chain_by_index s (some value)
  else s

/-- `zynthian_gui_mixer.get_state`: snapshot of all `MAX_NUM_CHANNELS + 1`
engine slots. -/
def get_state (e : Engine) : List ChannelState :=
  (List.range (MAX_NUM_CHANNELS + 1)).map (fun strip => e strip)

/-- One iteration of the `zynthian_gui_mixer.set_state` loop: write level,
balance and mute for the slot, write solo only when the slot is not the
main channel, then write mono. -/
def set_state_step (state : List ChannelState) (e : Engine) (strip : Nat) : Engine :=
  let v := state.getD strip default
  let e1 := Engine.set_level e strip v.level
  let e2 := Engine.set_balance e1 strip v.balance
  let e3 := Engine.set_mute e2 strip v.mute
  let e4 := if strip ≠ MAX_NUM_CHANNELS then Engine.set_solo e3 strip v.solo else e3
  Engine.set_mono e4 strip v.mono

/-- `zynthian_gui_mixer.set_state`: run the loop over all
`MAX_NUM_CHANNELS + 1` slots. -/
def set_state (e : Engine) (state : List ChannelState) : Engine :=
  (List.range (MAX_NUM_CHANNELS + 1)).foldl (set_state_step state) e

/-- The per-channel record `set_state` leaves in slot `i` when the
supplied list is `S` and the slot previously held `old`. -/
def set_state_result (S : List ChannelState) (old : ChannelState) (i : Nat) :
    ChannelState :=
  { level := (S.getD i default).level
    balance := (S.getD i default).balance
    mute := (S.getD i default).mute
    solo := if i ≠ MAX_NUM_CHANNELS then (S.getD i default).solo else old.solo
    mono := (S.getD i default).mono }

/-- The window invariant of the view state: the selection, when set, lies in
the visible window `[mixer_strip_offset, mixer_strip_offset + visible)` or
is the main-bus index `number_layers`. -/
def window_ok (s : MixerState) : Bool :=
  match s.selected_chain_index with
  | none => true
  | some sel =>
      decide (s.mixer_strip_offset ≤ sel ∧
        sel < s.mixer_strip_offset + (s.visible_mixer_strips.length : Int)) ||
      decide (sel = (s.number_layers : Int))

/-- The list of per-strip dirty flags of the visible strips. -/
def flagList (s : MixerState) : List Bool :=
  s.visible_mixer_strips.map (fun st => st.redraw_controls_flag)

/-! LED status reducer (`zynthian_wsleds_base.py` + `zynthian_wsleds_v5.py`). -/

/-- An RGB triple as produced by `create_color`. -/
abbrev WsColor := Nat × Nat × Nat

/-- `zynthian_wsleds_base.create_color`: scale each component by the
brightness and truncate (all quantities involved are non-negative). -/
def create_color (brightness : ℚ) (r g b : Nat) : WsColor :=
  ((brightness * r).floor.toNat, (brightness * g).floor.toNat,
   (brightness * b).floor.toNat)

/-- The application state the V5 LED reducer reads besides the current
screen name: brightness, navigation flags, transport status, and the writes
performed by the three externally-delegated handlers (the current screen's
own `update_wsleds(wsleds)` when it has one, the MIDI recorder's handler,
and the trailing `screens[curscreen].update_wsleds()` call, empty when that
call raises). -/
structure V5Env where
  brightness : ℚ
  is_menu : Bool
  alt_mode : Bool
  metronome_enabled : Bool
  rec_audio : Bool
  play_audio : Bool
  screen_handler_writes : Option (List (Nat × WsColor))
  midi_recorder_writes : List (Nat × WsColor)
  trailing_writes : List (Nat × WsColor)

/-- `zynthian_wsleds_v5.update_wsleds`: the ordered list of
`(led index, color)` writes it performs, as a function of the blink state,
the current screen name and the application flags. -/
def update_wsleds_v5 (env : V5Env) (blink_state : Bool) (curscreen : String) :
    List (Nat × WsColor) :=
  let br := env.brightness
  let cOff := create_color br 0 0 0
  let cDefault := create_color br 0 0 220
  let cAlt := create_color br 130 0 130
  let cActive := create_color br 0 220 0
  let cActive2 := create_color br 190 80 0
  let cRed := create_color br 140 0 0
  let cGreen := create_color br 0 220 0
  let cYellow := create_color br 160 160 0
  let led0 := if env.is_menu then cActive
              else if curscreen = "admin" then cActive2 else cDefault
  let led1 := if curscreen = "audio_mixer" then cActive
              else if curscreen = "alsa_mixer" then cActive2 else cDefault
  let led2 := if curscreen = "control" ∨ curscreen = "audio_player" then cActive
              else if curscreen = "preset" ∨ curscreen = "bank" then cActive2
              else cDefault
  let led3 := if curscreen = "zs3" then cActive
              else if curscreen = "snapshot" then cActive2 else cDefault
  let led5 := if curscreen = "zynpad" then cActive
              else if curscreen = "pattern_editor" then cActive2 else cDefault
  let led6 := if curscreen = "tempo" then cActive
              else if env.metronome_enabled then
                (if blink_state then cActive else cOff)
              else cDefault
  let led7 := if env.alt_mode then cAlt else cDefault
  let mid : List (Nat × WsColor) :=
    match env.screen_handler_writes with
    | some w => w
    | none =>
        if env.alt_mode then env.midi_recorder_writes
        else [(8, if env.rec_audio then cRed else cDefault), (9, cDefault),
              (10, if env.play_audio then cGreen else cDefault)]
  let fx := if env.alt_mode then cAlt else cDefault
  [(0, led0), (1, led1), (2, led2), (3, led3), (5, led5), (6, led6), (7, led7)]
    ++ mid
    ++ [(13, cGreen), (15, cRed), (14, cYellow), (16, cYellow), (17, cYellow),
        (18, cYellow), (4, fx), (11, fx), (12, fx), (19, fx)]
    ++ env.trailing_writes

/-- Tick-local state of the base LED driver: the tick counter, the blink
state it derives, and the pulse ramp used in power-save mode. -/
structure WsState where
  blink_count : Nat
  blink_state : Bool
  pulse_step : Nat
deriving DecidableEq

/-- `zynthian_wsleds_base.update`: one periodic tick.  In power-save mode it
derives the blink state from `blink_count % 64 > 44` and pulses LED 0 (note
the source's `self.light_off_all` line lacks parentheses, so it performs no
writes); in normal mode it derives the blink state from
`blink_count % 4 > 1` and runs the V5 reducer.  The capture-log branch emits
no LED writes and is omitted.  Returns the successor state and the ordered
LED writes of the tick. -/
def wsleds_update (ws : WsState) (power_save : Bool) (env : V5Env)
    (curscreen : String) : WsState × List (Nat × WsColor) :=
  if power_save then
    let bs := decide (ws.blink_count % 64 > 44)
    let inner := (env.brightness * ((ws.pulse_step * 6 : Nat) : ℚ)).floor.toNat
    let p : WsColor × Nat :=
      if bs then (create_color env.brightness 0 inner 0, ws.pulse_step + 1)
      else if 0 < ws.pulse_step then (create_color env.brightness 0 inner 0, ws.pulse_step - 1)
      else (create_color env.brightness 0 0 0, 0)
    ({ blink_count := ws.blink_count + 1, blink_state := bs, pulse_step := p.2 },
     [(0, p.1)])
  else
    let bs := decide (ws.blink_count % 4 > 1)
    ({ blink_count := ws.blink_count + 1, blink_state := bs,
       pulse_step := ws.pulse_step },
     update_wsleds_v5 env bs curscreen)

/-! Concrete states used by the closed witness and counterexample theorems. -/

/-- An engine holding the all-zero default record on every channel. -/
def egEngine : Engine := fun _ => default

/-- A visible strip bound to audio chain `i`. -/
def egStrip (i : Nat) : Strip :=
  { layer := some (Layer.chain i false), redraw_controls_flag := false,
    hidden := false }

/-- An unbound (hidden) visible strip. -/
def egStripNone : Strip :=
  { layer := none, redraw_controls_flag := false, hidden := true }

/-- The permanent main-bus strip. -/
def egMainStrip : Strip :=
  { layer := some Layer.main, redraw_controls_flag := false, hidden := false }

/-- A mixer view with three audio chains, four visible slots (the fourth
unbound), scroll offset 0, chain 1 selected, in mixer mode. -/
def sA : MixerState :=
  { engine := egEngine
    layers := [Layer.chain 0 false, Layer.chain 1 false, Layer.chain 2 false]
    visible_mixer_strips := [egStrip 0, egStrip 1, egStrip 2, egStripNone]
    main_mixbus_strip := egMainStrip
    selected_chain_index := some 1
    mixer_strip_offset := 0
    number_layers := 3
    selected_layer := some (Layer.chain 1 false)
    mode := 1
    edit_chain_index := none
    redraw_pending := false }

/-- A mixer view with one audio chain and one MIDI-only chain, two visible
slots, chain 0 selected. -/
def sB : MixerState :=
  { engine := egEngine
    layers := [Layer.chain 0 false, Layer.chain 5 true]
    visible_mixer_strips :=
      [egStrip 0,
       { layer := some (Layer.chain 5 true), redraw_controls_flag := false,
         hidden := false }]
    main_mixbus_strip := egMainStrip
    selected_chain_index := some 0
    mixer_strip_offset := 0
    number_layers := 2
    selected_layer := some (Layer.chain 0 false)
    mode := 1
    edit_chain_index := none
    redraw_pending := false }

/-- A well-formed snapshot list of length `MAX_NUM_CHANNELS + 1` whose
main-bus slot requests `solo := true`. -/
def cexS : List ChannelState :=
  List.replicate MAX_NUM_CHANNELS default ++ [{ (default : ChannelState) with solo := true }]

/-! Helper lemmas about the reconcile step and chain selection. -/

@[simp] theorem set_mixer_mode_selected_chain (s : MixerState) :
    (MixerState.set_mixer_mode s).selected_chain_index = s.selected_chain_index := rfl

@[simp] theorem set_mixer_mode_offset (s : MixerState) :
    (MixerState.set_mixer_mode s).mixer_strip_offset = s.mixer_strip_offset := rfl

@[simp] theorem set_mixer_mode_number_layers (s : MixerState) :
    (MixerState.set_mixer_mode s).number_layers = s.layers.length := rfl

@[simp] theorem set_mixer_mode_layers (s : MixerState) :
    (MixerState.set_mixer_mode s).layers = s.layers := rfl

@[simp] theorem set_mixer_mode_strips_length (s : MixerState) :
    (MixerState.set_mixer_mode s).visible_mixer_strips.length
      = s.visible_mixer_strips.length := by
  simp [MixerState.set_mixer_mode]

theorem select_noop_of_guard (s : MixerState) (ci : Int)
    (h : s.mode = 0 ∨ ci < 0 ∨ some ci = s.selected_chain_index ∨ s.number_layers = 0) :
    MixerState.select_chain_by_index s (some ci) = s := by
  simp only [MixerState.select_chain_by_index]
  rw [if_pos h]

theorem select_selected_of_guard (s : MixerState) (ci : Int)
    (h : ¬(s.mode = 0 ∨ ci < 0 ∨ some ci = s.selected_chain_index ∨ s.number_layers = 0)) :
    (MixerState.select_chain_by_index s (some ci)).selected_chain_index
      = some (if (s.number_layers : Int) < ci then (s.number_layers : Int) else ci) := by
  simp only [MixerState.select_chain_by_index]
  rw [if_neg h]
  split_ifs <;> simp

/-- C5 (amended): `select_chain_by_index` is a no-op exactly on the guard the
source tests — edit mode, a negative raw index, a raw index equal to the
current selection, or a zero chain count — and a no-op leaves the whole view
state unchanged; in every other case the new selection is the input clamped
from above to the chain count, `min ci number_layers` (negative indices are
rejected, not clamped to 0). -/
theorem select_clamp_and_noop (s : MixerState) (ci : Int) :
    ((s.mode = 0 ∨ ci < 0 ∨ some ci = s.selected_chain_index ∨ s.number_layers = 0) →
        MixerState.select_chain_by_index s (some ci) = s)
    ∧ (¬(s.mode = 0 ∨ ci < 0 ∨ some ci = s.selected_chain_index ∨ s.number_layers = 0) →
        (MixerState.select_chain_by_index s (some ci)).selected_chain_index
          = some (min ci (s.number_layers : Int))) := by
  constructor
  · exact select_noop_of_guard s ci
  · intro h
    rw [select_selected_of_guard s ci h]
    congr 1
    split <;> omega

/-- C5 counterexample: in `sA` (mixer mode, 3 chains, chain 1 selected),
`select(-1)` leaves the selection at 1, although the claim's clamped value
`max 0 (min (-1) N) = 0` differs from the current selection and none of the
claimed no-op conditions (edit mode, zero chains) holds. -/
theorem select_negative_index_cex :
    sA.mode ≠ 0 ∧ sA.number_layers ≠ 0 ∧ sA.selected_chain_index = some 1 ∧
    max 0 (min (-1 : Int) (sA.number_layers : Int)) = 0 ∧
    (MixerState.select_chain_by_index sA (some (-1))).selected_chain_index ≠ some 0 ∧
    (MixerState.select_chain_by_index sA (some (-1))).selected_chain_index = some 1 := by
  decide

theorem select_clamp_and_noop_witness :
    (sA.mode = 0 ∨ (-1 : Int) < 0 ∨ some (-1 : Int) = sA.selected_chain_index ∨
      sA.number_layers = 0)
    ∧ MixerState.select_chain_by_index sA (some (-1)) = sA :=
  ⟨by decide, (select_clamp_and_noop sA (-1)).1 (by decide)⟩

/-- C4 (amended): the SELECT-encoder read maps a raw value `v` to chain
index `(1 + v) / 4` (integer division), not `v / 4`: raw `4*k` still selects
`k`, and the mapping agrees with `v / 4` except when `v % 4 = 3`, where it
selects `v / 4 + 1`. -/
theorem encoder_select_mapping (s : MixerState) (v : Nat)
    (hmode : s.mode ≠ 0)
    (hne : some ((((1 + v) / 4 : Nat) : Int)) ≠ s.selected_chain_index)
    (hnl : s.number_layers ≠ 0)
    (hle : (1 + v) / 4 ≤ s.number_layers) :
    (zyncoder_read_select s v).selected_chain_index = some ((((1 + v) / 4 : Nat) : Int))
    ∧ (1 + 4 * v) / 4 = v
    ∧ (v % 4 = 3 → (1 + v) / 4 = v / 4 + 1)
    ∧ (v % 4 ≠ 3 → (1 + v) / 4 = v / 4) := by
  refine ⟨?_, by omega, fun h => by omega, fun h => by omega⟩
  simp only [zyncoder_read_select]
  rw [if_pos ⟨hmode, hne⟩]
  have hng : ¬(s.mode = 0 ∨ (((1 + v) / 4 : Nat) : Int) < 0 ∨
      some ((((1 + v) / 4 : Nat) : Int)) = s.selected_chain_index ∨ s.number_layers = 0) := by
    push_neg
    exact ⟨hmode, by positivity, hne, hnl⟩
  rw [select_selected_of_guard s _ hng]
  congr 1
  rw [if_neg (by exact_mod_cast not_lt.mpr hle)]

/-- C4 counterexample: in `sA` (chain 1 selected), raw SELECT-encoder value 7
selects chain 2, but the claim's `7 / 4` (integer division rounding down)
is 1. -/
theorem encoder_select_mapping_cex :
    (7 : Nat) / 4 = 1 ∧ sA.selected_chain_index = some 1 ∧ sA.mode = 1 ∧
    (zyncoder_read_select sA 7).selected_chain_index = some 2 := by
  decide

theorem encoder_select_mapping_witness :
    sA.mode ≠ 0 ∧ (1 + 8) / 4 ≤ sA.number_layers ∧
    (zyncoder_read_select sA 8).selected_chain_index = some ((((1 + 8) / 4 : Nat) : Int)) :=
  ⟨by decide, by decide,
   (encoder_select_mapping sA 8 (by decide) (by decide) (by decide) (by decide)).1⟩

/-- C2 (amended): an index at or beyond the current chain count is not
ignored — `get_mixer_strip_from_layer_index` resolves every such index
(not only the main-bus index `number_layers`) to the permanent main-bus
strip, so e.g. `set_volume` stores the clamped value under the main-bus
engine channel `MAX_NUM_CHANNELS` and marks the main-bus strip dirty.
Only a missing or negative index is a silent no-op. -/
theorem out_of_range_index_resolves_to_main_bus (s : MixerState) (chi : Int) (v : ℚ)
    (hge : (s.number_layers : Int) ≤ chi)
    (hmain : s.main_mixbus_strip.layer = some Layer.main) :
    get_mixer_strip_from_layer_index s (some chi) = some StripRef.mainStrip
    ∧ ((MixerState.set_volume s v (some chi)).engine MAX_NUM_CHANNELS).level
        = (if v < 0 then 0 else if v > 1 then 1 else v)
    ∧ (MixerState.set_volume s v (some chi)).main_mixbus_strip.redraw_controls_flag = true := by
  have hres : get_mixer_strip_from_layer_index s (some chi) = some StripRef.mainStrip := by
    simp only [get_mixer_strip_from_layer_index]
    rw [if_neg (by omega : ¬ chi < 0), if_neg (not_lt.mpr hge)]
  refine ⟨hres, ?_, ?_⟩
  · simp [MixerState.set_volume, hres, updateStrip, Strip.set_volume, hmain,
      Engine.set_level, Layer.midiChan]
  · simp [MixerState.set_volume, hres, updateStrip, Strip.set_volume, hmain]

/-- C2 counterexample: in `sA` (3 chains), the out-of-range index 5 — which
is neither the main-bus selection index 3 nor the main-bus engine channel
16 — is not a no-op: `set_volume(0.5, 5)` changes the main-bus engine level
from 0 to 0.5 and marks the main-bus strip dirty. -/
theorem set_volume_out_of_range_not_noop_cex :
    sA.number_layers = 3 ∧ (5 : Int) ≠ (sA.number_layers : Int) ∧
    (5 : Int) ≠ ((MAX_NUM_CHANNELS : Nat) : Int) ∧
    (sA.engine MAX_NUM_CHANNELS).level = 0 ∧
    ((MixerState.set_volume sA (1/2) (some 5)).engine MAX_NUM_CHANNELS).level = 1/2 ∧
    sA.main_mixbus_strip.redraw_controls_flag = false ∧
    (MixerState.set_volume sA (1/2) (some 5)).main_mixbus_strip.redraw_controls_flag = true := by
  refine ⟨by decide, by decide, by decide, by decide, ?_, by decide, by decide⟩
  norm_num [MixerState.set_volume, sA, get_mixer_strip_from_layer_index, pyIdx,
    updateStrip, Strip.set_volume, egMainStrip, Engine.set_level, Layer.midiChan,
    egEngine, MAX_NUM_CHANNELS]

theorem out_of_range_index_resolves_to_main_bus_witness :
    (sA.number_layers : Int) ≤ 5
    ∧ get_mixer_strip_from_layer_index sA (some 5) = some StripRef.mainStrip
    ∧ (MixerState.set_volume sA (1/4) (some 5)).main_mixbus_strip.redraw_controls_flag = true := by
  have h := out_of_range_index_resolves_to_main_bus sA 5 (1/4) (by decide) (by decide)
  exact ⟨by decide, h.1, h.2.2⟩

/-- C6: the strip-level `set_volume` clamps its argument into `[0, 1]`
before storing it under the bound layer's engine channel: negative inputs
store 0, inputs above 1 store 1, and in-range inputs are stored unchanged. -/
theorem strip_set_volume_clamps (st : Strip) (e : Engine) (value : ℚ) (l : Layer)
    (h : st.layer = some l) :
    ((Strip.set_volume st e value).2 l.midiChan).level
      = (if value < 0 then 0 else if value > 1 then 1 else value) := by
  simp [Strip.set_volume, h, Engine.set_level]

theorem strip_set_volume_clamps_witness :
    (egStrip 0).layer = some (Layer.chain 0 false)
    ∧ ((Strip.set_volume (egStrip 0) egEngine (-1/2)).2 (Layer.chain 0 false).midiChan).level
        = (if (-1/2 : ℚ) < 0 then 0 else if (-1/2 : ℚ) > 1 then 1 else (-1/2 : ℚ))
    ∧ ((Strip.set_volume (egStrip 0) egEngine (-1/2)).2 0).level = 0
    ∧ ((Strip.set_volume (egStrip 0) egEngine (17/10)).2 0).level = 1 := by
  refine ⟨rfl, strip_set_volume_clamps (egStrip 0) egEngine (-1/2) (Layer.chain 0 false) rfl,
    ?_, ?_⟩
  · norm_num [Strip.set_volume, egStrip, egEngine, Engine.set_level, Layer.midiChan]
  · norm_num [Strip.set_volume, egStrip, egEngine, Engine.set_level, Layer.midiChan]

/-- C7: when the strip resolved for a channel index is bound to a MIDI-only
layer (`engine.type == "MIDI Tool"`), the view-level `set_balance`,
`reset_balance` and `set_mono` are complete no-ops — the whole state, and in
particular the engine's stored balance for that layer's channel, is
unchanged; the check goes through the `is_audio_layer` predicate. -/
theorem midi_only_balance_mono_noop (s : MixerState) (chi : Int) (r : StripRef)
    (v : ℚ) (b : Bool) (mc : Nat)
    (hres : get_mixer_strip_from_layer_index s (some chi) = some r)
    (hmidi : (stripAt s r).layer = some (Layer.chain mc true)) :
    MixerState.set_balance s v (some chi) = s
    ∧ MixerState.reset_balance s (some chi) = s
    ∧ MixerState.set_mono s b (some chi) = s
    ∧ ((MixerState.set_balance s v (some chi)).engine mc).balance
        = (s.engine mc).balance := by
  have haud : is_audio_layer (stripAt s r).layer = false := by
    rw [hmidi]; rfl
  have h1 : MixerState.set_balance s v (some chi) = s := by
    simp [MixerState.set_balance, hres, haud]
  have h2 : MixerState.reset_balance s (some chi) = s := by
    simp [MixerState.reset_balance, hres, haud]
  have h3 : MixerState.set_mono s b (some chi) = s := by
    simp [MixerState.set_mono, hres, haud]
  exact ⟨h1, h2, h3, by rw [h1]⟩

theorem midi_only_balance_mono_noop_witness :
    get_mixer_strip_from_layer_index sB (some 1) = some (StripRef.chainStrip 1)
    ∧ (stripAt sB (StripRef.chainStrip 1)).layer = some (Layer.chain 5 true)
    ∧ MixerState.set_balance sB (1/4) (some 1) = sB
    ∧ ((MixerState.set_balance sB (1/4) (some 1)).engine 5).balance
        = (sB.engine 5).balance := by
  have h := midi_only_balance_mono_noop sB 1 (StripRef.chainStrip 1) (1/4) true 5
    (by decide) (by decide)
  exact ⟨by decide, by decide, h.1, h.2.2.2⟩

/-- C8: toggling solo on a chain strip (an audio chain resolved to visible
slot `k`) sets the per-strip dirty flag of exactly that slot and of the
main-bus strip: the visible flag list becomes the old list with slot `k`
set, every other slot keeping its previous flag. -/
theorem toggle_solo_marks_exactly_target_and_main (s : MixerState) (ci : Int) (k : Nat)
    (hres : get_mixer_strip_from_layer_index s (some ci) = some (StripRef.chainStrip k))
    (haud : is_audio_layer ((s.visible_mixer_strips.getD k default).layer) = true) :
    flagList (MixerState.toggle_solo s (some ci)) = (flagList s).set k true
    ∧ (MixerState.toggle_solo s (some ci)).main_mixbus_strip.redraw_controls_flag
        = true := by
  have haud2 : is_audio_layer ((s.visible_mixer_strips[k]?.getD default).layer) = true := by
    simpa [List.getD_eq_getElem?_getD] using haud
  obtain ⟨l, hl⟩ : ∃ l, (s.visible_mixer_strips[k]?.getD default).layer = some l := by
    cases hh : (s.visible_mixer_strips[k]?.getD default).layer with
    | none => rw [hh] at haud2; simp [is_audio_layer] at haud2
    | some l => exact ⟨l, rfl⟩
  have hla : is_audio_layer (some l) = true := hl ▸ haud2
  constructor
  · simp only [MixerState.toggle_solo, hres, stripAt, updateStrip, Strip.toggle_solo]
    simp [hl, hla, flagList, List.map_set]
  · simp only [MixerState.toggle_solo, hres, stripAt, updateStrip, Strip.toggle_solo]
    simp [hl, hla]

theorem toggle_solo_marks_exactly_target_and_main_witness :
    get_mixer_strip_from_layer_index sA (some 2) = some (StripRef.chainStrip 2)
    ∧ is_audio_layer ((sA.visible_mixer_strips.getD 2 default).layer) = true
    ∧ flagList (MixerState.toggle_solo sA (some 2)) = (flagList sA).set 2 true
    ∧ (MixerState.toggle_solo sA (some 2)).main_mixbus_strip.redraw_controls_flag = true := by
  have h := toggle_solo_marks_exactly_target_and_main sA 2 2 (by decide) (by decide)
  exact ⟨by decide, by decide, h.1, h.2⟩

/-- C9: the per-tick LED update in normal (non power-save) mode is a pure
function of the tick state, the application flags and the current screen —
two runs on identical inputs give identical successor states and identical
ordered write lists — and the blink state it derives is on exactly when
`blink_count % 4 > 1` (a 50%-duty blink driven by the tick counter, with no
other time source in the reducer). -/
theorem led_reducer_deterministic_and_blink (ws : WsState) (env : V5Env) (scr : String) :
    wsleds_update ws false env scr = wsleds_update ws false env scr
    ∧ (wsleds_update ws false env scr).1.blink_state
        = decide (ws.blink_count % 4 > 1)
    ∧ (wsleds_update ws false env scr).2
        = update_wsleds_v5 env (decide (ws.blink_count % 4 > 1)) scr := by
  refine ⟨rfl, ?_, ?_⟩ <;> simp [wsleds_update]

/-- C10: the view-level mouse-wheel scroll handlers keep the scroll offset
inside `[0, max 0 (N - visible_count)]`: `on_fader_wheel_down` is a no-op at
offset 0 and otherwise decrements, `on_fader_wheel_up` is a no-op once
`offset + visible_count ≥ N` and otherwise increments. -/
theorem fader_wheel_offset_bounds (s : MixerState)
    (h0 : 0 ≤ s.mixer_strip_offset)
    (h1 : s.mixer_strip_offset
        ≤ max 0 ((s.number_layers : Int) - (s.visible_mixer_strips.length : Int))) :
    (s.mixer_strip_offset = 0 → MixerState.on_fader_wheel_down s = s)
    ∧ ((s.number_layers : Int) ≤ s.mixer_strip_offset + (s.visible_mixer_strips.length : Int) →
        MixerState.on_fader_wheel_up s = s)
    ∧ (0 ≤ (MixerState.on_fader_wheel_down s).mixer_strip_offset
        ∧ (MixerState.on_fader_wheel_down s).mixer_strip_offset
            ≤ max 0 ((s.number_layers : Int) - (s.visible_mixer_strips.length : Int)))
    ∧ (0 ≤ (MixerState.on_fader_wheel_up s).mixer_strip_offset
        ∧ (MixerState.on_fader_wheel_up s).mixer_strip_offset
            ≤ max 0 ((s.number_layers : Int) - (s.visible_mixer_strips.length : Int))) := by
  refine ⟨?_, ?_, ?_, ?_⟩
  · intro h
    unfold MixerState.on_fader_wheel_down
    rw [if_pos (by omega : s.mixer_strip_offset < 1)]
  · intro h
    unfold MixerState.on_fader_wheel_up
    rw [if_pos h]
  · unfold MixerState.on_fader_wheel_down
    split_ifs with hc
    · exact ⟨h0, h1⟩
    · simp only [set_mixer_mode_offset]
      exact ⟨by omega, by omega⟩
  · unfold MixerState.on_fader_wheel_up
    split_ifs with hc
    · exact ⟨h0, h1⟩
    · simp only [set_mixer_mode_offset]
      exact ⟨by omega, by omega⟩

theorem fader_wheel_offset_bounds_witness :
    (0 : Int) ≤ sA.mixer_strip_offset
    ∧ sA.mixer_strip_offset
        ≤ max 0 ((sA.number_layers : Int) - (sA.visible_mixer_strips.length : Int))
    ∧ 0 ≤ (MixerState.on_fader_wheel_up sA).mixer_strip_offset
    ∧ (MixerState.on_fader_wheel_up sA).mixer_strip_offset
        ≤ max 0 ((sA.number_layers : Int) - (sA.visible_mixer_strips.length : Int)) :=
  ⟨by decide, by decide,
   (fader_wheel_offset_bounds sA (by decide) (by decide)).2.2.2.1,
   (fader_wheel_offset_bounds sA (by decide) (by decide)).2.2.2.2⟩

theorem window_ok_set_mixer_mode (s : MixerState)
    (h : s.number_layers = s.layers.length) :
    window_ok (MixerState.set_mixer_mode s) = window_ok s := by
  cases hsel : s.selected_chain_index with
  | none => simp [window_ok, hsel]
  | some sel => simp [window_ok, hsel, h]

/-- C1: for a valid index `i` in `[0, N]` (`N` = chain count = main-bus
index), `select_chain_by_index i` followed by the reconcile step
`set_mixer_mode` preserves the window invariant
`scroll_offset ≤ selected < scroll_offset + visible_count ∨ selected = N`
(stated for a state whose chain count agrees with the chain manager and
with at least one visible slot). -/
theorem select_then_reconcile_preserves_window (s : MixerState) (i : Int)
    (hinv : window_ok s = true)
    (hlen : 1 ≤ s.visible_mixer_strips.length)
    (hcons : s.number_layers = s.layers.length)
    (_h0 : 0 ≤ i) (hN : i ≤ (s.number_layers : Int)) :
    window_ok (MixerState.set_mixer_mode (MixerState.select_chain_by_index s (some i)))
      = true := by
  by_cases hno : s.mode = 0 ∨ i < 0 ∨ some i = s.selected_chain_index ∨ s.number_layers = 0
  · rw [select_noop_of_guard s i hno, window_ok_set_mixer_mode s hcons]
    exact hinv
  · simp only [MixerState.select_chain_by_index, if_neg hno]
    have hclamp : (if (s.number_layers : Int) < i then (s.number_layers : Int) else i) = i :=
      if_neg (not_lt.mpr hN)
    rw [hclamp]
    split_ifs with hb1 hb2 hb3 hb3 <;>
      simp [window_ok, MixerState.set_mixer_mode, Bool.or_eq_true,
        decide_eq_true_eq] <;>
      omega

theorem select_then_reconcile_preserves_window_witness :
    window_ok sA = true
    ∧ window_ok (MixerState.set_mixer_mode (MixerState.select_chain_by_index sA (some 2)))
        = true :=
  ⟨by decide,
   select_then_reconcile_preserves_window sA 2 (by decide) (by decide) (by decide)
     (by decide) (by decide)⟩

theorem set_state_step_ne (S : List ChannelState) (e : Engine) (i ch : Nat)
    (h : ch ≠ i) : set_state_step S e i ch = e ch := by
  by_cases h16 : i ≠ MAX_NUM_CHANNELS <;>
    simp [set_state_step, Engine.set_level, Engine.set_balance, Engine.set_mute,
      Engine.set_solo, Engine.set_mono, h16, h]

theorem set_state_step_eq (S : List ChannelState) (e : Engine) (i : Nat) :
    set_state_step S e i i = set_state_result S (e i) i := by
  by_cases h16 : i ≠ MAX_NUM_CHANNELS <;>
    simp [set_state_step, set_state_result, Engine.set_level, Engine.set_balance,
      Engine.set_mute, Engine.set_solo, Engine.set_mono, h16]

theorem set_state_fold_not_mem (S : List ChannelState) (l : List Nat) (e : Engine)
    (ch : Nat) (h : ch ∉ l) : (l.foldl (set_state_step S) e) ch = e ch := by
  induction l generalizing e with
  | nil => rfl
  | cons a t ih =>
      simp only [List.foldl_cons]
      have hne : ch ≠ a := fun hh => h (hh ▸ List.mem_cons_self a t)
      rw [ih _ (fun hm => h (List.mem_cons_of_mem a hm)),
        set_state_step_ne S e a ch hne]

theorem set_state_fold_mem (S : List ChannelState) (l : List Nat) (e : Engine)
    (ch : Nat) (hnd : l.Nodup) (h : ch ∈ l) :
    (l.foldl (set_state_step S) e) ch = set_state_result S (e ch) ch := by
  induction l generalizing e with
  | nil => cases h
  | cons a t ih =>
      simp only [List.foldl_cons]
      rcases List.mem_cons.mp h with rfl | hmem
      · rw [set_state_fold_not_mem S t _ ch (List.nodup_cons.mp hnd).1,
          set_state_step_eq]
      · have hne : ch ≠ a := by
          rintro rfl
          exact (List.nodup_cons.mp hnd).1 hmem
        rw [ih (set_state_step S e a) (List.nodup_cons.mp hnd).2 hmem,
          set_state_step_ne S e a ch hne]

/-- C3 (amended): `set_state` writes level, balance, mute and mono for all
`MAX_NUM_CHANNELS + 1` slots but writes solo only for the non-main slots,
so the round trip `get_state (set_state e S)` returns `S` with the main
slot's solo replaced by the engine's pre-existing main-bus solo; the
round trip is exact on every other field and slot. -/
theorem set_state_get_state_roundtrip_except_main_solo (e : Engine)
    (S : List ChannelState) (h : S.length = MAX_NUM_CHANNELS + 1) :
    get_state (set_state e S)
      = S.set MAX_NUM_CHANNELS
          { S.getD MAX_NUM_CHANNELS default with solo := (e MAX_NUM_CHANNELS).solo } := by
  apply List.ext_getElem
  · simp [get_state, h]
  · intro i h1 h2
    have hi : i < MAX_NUM_CHANNELS + 1 := by
      simpa [get_state] using h1
    have hiS : i < S.length := by omega
    have hL : (get_state (set_state e S))[i] = set_state_result S (e i) i := by
      simp only [get_state, List.getElem_map, List.getElem_range]
      exact set_state_fold_mem S _ e i (List.nodup_range _) (List.mem_range.mpr hi)
    rw [hL, List.getElem_set]
    by_cases h16 : i = MAX_NUM_CHANNELS
    · subst h16
      simp [set_state_result, List.getD_eq_getElem S default hiS]
    · rw [if_neg (fun hh => h16 hh.symm)]
      simp [set_state_result, h16, List.getElem?_eq_getElem hiS]

/-- C3 counterexample: a well-formed snapshot of length
`MAX_NUM_CHANNELS + 1` that requests `solo := true` on the main-bus slot
does not round-trip through `set_state`/`get_state` on an engine whose
main-bus solo is off, because `set_state` skips the main slot's solo. -/
theorem set_state_roundtrip_cex :
    cexS.length = MAX_NUM_CHANNELS + 1
    ∧ get_state (set_state egEngine cexS) ≠ cexS := by
  exact ⟨by decide, by decide⟩

theorem set_state_get_state_roundtrip_witness :
    cexS.length = MAX_NUM_CHANNELS + 1
    ∧ get_state (set_state egEngine cexS)
        = cexS.set MAX_NUM_CHANNELS
            { cexS.getD MAX_NUM_CHANNELS default with
                solo := (egEngine MAX_NUM_CHANNELS).solo } :=
  ⟨by decide,
   set_state_get_state_roundtrip_except_main_solo egEngine cexS (by decide)⟩
